import Mathlib

/-!
Verification development for the `pyxides` container library.

The development shallowly embeds the pieces of `src/pyxides/typing.py` and
`src/pyxides/vectorize.py` that govern type-restricted containers and
vectorized attribute/method access, and proves (or refutes) the behavioural
properties stated for them.

Conventions of the embedding:

* Python types that appear in the code, tests and documentation are modelled
  by the finite universe `PyType`; `issubclass` encodes Python's subclass
  relation on that universe, including the `numbers` ABC registrations
  (`bool ⊂ int ⊂ Integral ⊂ Real`, `float ⊂ Real`).
* Python values are modelled by `PyVal`; floats carry a rational payload.
* Raised exceptions are modelled with `Except PyErr`; the error payload
  records only the exception class (`TypeError`, `ValueError`, ...), not the
  message text.
-/

/-- The universe of Python types exercised by the library and its tests:
`object`, the `numbers.Integral` / `numbers.Real` ABCs, `int`, `bool`,
`float`, `str` and `NoneType`. -/
inductive PyType where
  | obj
  | integral
  | real
  | int
  | bool
  | float
  | str
  | nonetype
deriving DecidableEq, Repr

/-- All (reflexive, transitive) superclasses of a type, encoding Python's
`issubclass` facts for the universe above: `bool ⊂ int`, and via the
`numbers` tower `int ⊂ Integral ⊂ Real ⊂ object`, `float ⊂ Real`. -/
def superclasses : PyType → List PyType
  | .obj => [.obj]
  | .integral => [.integral, .real, .obj]
  | .real => [.real, .obj]
  | .int => [.int, .integral, .real, .obj]
  | .bool => [.bool, .int, .integral, .real, .obj]
  | .float => [.float, .real, .obj]
  | .str => [.str, .obj]
  | .nonetype => [.nonetype, .obj]

/-- Python's `issubclass(a, b)` on the modelled universe. -/
def issubclass (a b : PyType) : Bool :=
  b ∈ superclasses a

/-- Python runtime values for the modelled universe. -/
inductive PyVal where
  | vint (n : Int)
  | vbool (b : Bool)
  | vfloat (q : ℚ)
  | vstr (s : String)
  | vnone
deriving DecidableEq, Repr

/-- The concrete Python type of a value. -/
def PyVal.typeOf : PyVal → PyType
  | .vint _ => .int
  | .vbool _ => .bool
  | .vfloat _ => .float
  | .vstr _ => .str
  | .vnone => .nonetype

/-- Python's `isinstance(v, t)`. -/
def isinstance (v : PyVal) (t : PyType) : Bool :=
  issubclass v.typeOf t

/-- Python's `isinstance(v, ts)` for a tuple of types `ts`
(instance of at least one type in the tuple). -/
def isinstance_any (v : PyVal) (ts : List PyType) : Bool :=
  ts.any (isinstance v)

/-- Exception classes raised by the modelled code.  Only the class of the
exception is tracked, not the message. -/
inductive PyErr where
  | typeError
  | valueError
  | attributeError
  | assertionError
  | indexError
  | keyError
deriving DecidableEq, Repr

/-- Decidable equality for `Except`, so that concrete runs of the embedded
operations can be checked with `decide`. -/
def exceptDecEq {ε α : Type} [DecidableEq ε] [DecidableEq α] :
    (x y : Except ε α) → Decidable (x = y)
  | .ok a, .ok b =>
    if h : a = b then .isTrue (by rw [h])
    else .isFalse (fun hh => h (Except.ok.inj hh))
  | .error e, .error f =>
    if h : e = f then .isTrue (by rw [h])
    else .isFalse (fun hh => h (Except.error.inj hh))
  | .ok _, .error _ => .isFalse (fun hh => Except.noConfusion hh)
  | .error _, .ok _ => .isFalse (fun hh => Except.noConfusion hh)

instance {ε α : Type} [DecidableEq ε] [DecidableEq α] : DecidableEq (Except ε α) :=
  exceptDecEq

/-! ## `OfTypes._check_allowed_types` (typing.py, lines 92-115)

The metaclass `OfTypes.__new__` calls `make_bases`, which calls
`_check_allowed_types(name, requested, previous)` where `requested` are the
allowed types of the enforcer base appearing directly in the class
declaration and `previous` are the allowed types collected from enforcer
ancestors one level up.  A raised `TypeError` aborts class construction. -/

/-- `OfTypes._check_allowed_types` (typing.py lines 92-115).  Faithful to the
source's double loop:

for each `allowed` in `previous_allowed_types`, the inner loop over
`requested_allowed_types` either `break`s on its first iteration (when the
first requested type is a subclass of `allowed`) or raises `TypeError`
("Multiple incompatible type restrictions") immediately.  Consequently only
the first requested type is ever inspected. -/
def _check_allowed_types (requested : List PyType) : List PyType → Except PyErr Unit
  | [] => .ok ()
  | allowed :: rest =>
    match requested with
    | [] => _check_allowed_types requested rest
    | new :: _ =>
      if issubclass new allowed then _check_allowed_types requested rest
      else .error .typeError

/-- The narrowing condition as the spec words it (spec §4.1 step 3): "each
newly requested type must be a subtype of at least one previously allowed
type".  Stated from the spec's words for comparison with
`_check_allowed_types`. -/
def spec_narrowing_ok (requested previous : List PyType) : Bool :=
  requested.all fun new => previous.any fun allowed => issubclass new allowed

example : _check_allowed_types [.bool] [.integral] = .ok () := by decide
example : _check_allowed_types [.float] [.integral] = .error .typeError := by decide
example : _check_allowed_types [.bool, .float] [.integral] = .ok () := by decide
example : spec_narrowing_ok [.bool, .float] [.integral] = false := by decide
example : _check_allowed_types [.bool] [.integral, .str] = .error .typeError := by decide
example : spec_narrowing_ok [.bool] [.integral, .str] = true := by decide

/-! ## `_TypeEnforcer` (typing.py, lines 221-288)

The mixin's behaviour is determined by three pieces of class-level state:
`_allowed_types` (a non-empty tuple of types), `emit` (the action taken on a
type violation: `echo0` = ignore, `wrn.warn` = warn, `bork(TypeError)` =
raise), and `convert` (`echo0` by default; set to the single allowed type's
constructor when coercion is enabled via `type_checking(-2)`). -/

/-- Python's truthiness, used by `bool(v)`. -/
def truthy : PyVal → Bool
  | .vint n => n ≠ 0
  | .vbool b => b
  | .vfloat q => q ≠ 0
  | .vstr s => s ≠ ""
  | .vnone => false

/-- A Python constructor call `t(v)` for the types of the modelled universe:
`int` truncates floats towards zero, accepts bools, and rejects `None`
(`TypeError`); `bool` is truthiness; `float` accepts numbers; numeric
parsing of strings is omitted (modelled as the `ValueError` Python raises
for non-numeric strings; no claim exercises numeric strings); the abstract
classes `Integral` and `Real` cannot be instantiated, and `object(v)` /
`NoneType(v)` reject their argument. -/
def pyCall (t : PyType) (v : PyVal) : Except PyErr PyVal :=
  match t with
  | .int =>
    match v with
    | .vint n => .ok (.vint n)
    | .vbool b => .ok (.vint (if b then 1 else 0))
    | .vfloat q => .ok (.vint (q.num.tdiv q.den))
    | .vstr _ => .error .valueError
    | .vnone => .error .typeError
  | .bool => .ok (.vbool (truthy v))
  | .float =>
    match v with
    | .vint n => .ok (.vfloat n)
    | .vbool b => .ok (.vfloat (if b then 1 else 0))
    | .vfloat q => .ok (.vfloat q)
    | .vstr _ => .error .valueError
    | .vnone => .error .typeError
  | .str => .ok (.vstr "")
  | .obj | .integral | .real | .nonetype => .error .typeError

/-- The enforcement action stored in the class attribute `emit`
(`_TypeEnforcer._actions`): `echo0` (ignore, severity -1), `wrn.warn`
(warn, severity 0) or `bork(TypeError)` (raise, severity 1). -/
inductive Emit where
  | ignore
  | warn
  | raise
deriving DecidableEq, Repr

/-- The class-level state of a `_TypeEnforcer` container class:
`_allowed_types`, the current `emit` action (default: raise) and the current
`convert` function (`none` models `echo0`, `some t` models the constructor
of `t` installed by `type_checking(-2)`). -/
structure TypeEnforcer where
  allowed_types : List PyType
  emit : Emit := .raise
  convert : Option PyType := none
deriving DecidableEq, Repr

/-- `_TypeEnforcer.get_converter(True)` (typing.py lines 243-250): raises
`ValueError` when more than one allowed type is declared, otherwise returns
the single allowed type (as constructor).  An empty tuple would hit the
`[0]` index and raise `IndexError` (unreachable in practice: the `OfTypes`
constructor demands at least one type). -/
def TypeEnforcer.get_converter (c : TypeEnforcer) : Except PyErr PyType :=
  match c.allowed_types with
  | [] => .error .indexError
  | [t] => .ok t
  | _ :: _ :: _ => .error .valueError

/-- `_TypeEnforcer.type_checking(severity)` (typing.py lines 235-241): looks
up the action for `severity` in `_actions` (`KeyError` for anything outside
`{-2, -1, 0, 1}`); for `-2` installs the converter (`get_converter(True)`),
otherwise installs the action as the class's `emit`. -/
def TypeEnforcer.type_checking (c : TypeEnforcer) (severity : Int) :
    Except PyErr TypeEnforcer :=
  if severity = -2 then
    match c.get_converter with
    | .ok t => .ok { c with convert := some t }
    | .error e => .error e
  else if severity = -1 then .ok { c with emit := .ignore }
  else if severity = 0 then .ok { c with emit := .warn }
  else if severity = 1 then .ok { c with emit := .raise }
  else .error .keyError

/-- Application of the class's current `convert` to a value: `echo0` when no
converter is installed, otherwise the constructor of the installed type
(whose exceptions propagate). -/
def TypeEnforcer.convert_apply (c : TypeEnforcer) (v : PyVal) : Except PyErr PyVal :=
  match c.convert with
  | none => .ok v
  | some t => pyCall t v

/-- `_TypeEnforcer.check_type(obj, i, emit)` (typing.py lines 263-281),
faithful to the source's control flow:

* a conforming object is returned unchanged;
* otherwise `obj = self.convert(obj)` (a raised conversion error
  propagates) and a now-conforming object is returned;
* otherwise `emit = emit or self.emit` (`emitOv` models the explicit
  argument, `none` meaning the Python `None` default); `echo0` returns the
  (converted) object unchanged; `wrn.warn` emits the warning message and the
  method falls off the end, returning Python `None`; `bork(TypeError)`
  raises.

The result carries the returned value together with a flag recording
whether a warning was emitted. -/
def TypeEnforcer.check_type (c : TypeEnforcer) (obj : PyVal) (emitOv : Option Emit) :
    Except PyErr (PyVal × Bool) :=
  if isinstance_any obj c.allowed_types then .ok (obj, false)
  else
    match c.convert_apply obj with
    | .error e => .error e
    | .ok obj' =>
      if isinstance_any obj' c.allowed_types then .ok (obj', false)
      else
        match emitOv.getD c.emit with
        | .ignore => .ok (obj', false)
        | .warn => .ok (.vnone, true)
        | .raise => .error .typeError

/-- `_TypeEnforcer.append(item)` (typing.py lines 283-285):
`item = self.check_type(item, len(self))` (with the default `emit=None`,
hence the class's current `emit` action applies), then `super().append(item)`.
If `check_type` raises, `super().append` never runs and the underlying list
is unchanged.  The result is the final list contents, the warning flag, and
the raised exception (if any). -/
def TypeEnforcer.append (c : TypeEnforcer) (data : List PyVal) (item : PyVal) :
    List PyVal × Bool × Option PyErr :=
  match c.check_type item none with
  | .error e => (data, false, some e)
  | .ok (v, w) => (data ++ [v], w, none)

/-- `_TypeEnforcer.extend(itr)` (typing.py lines 287-288) together with the
generator `checks_type` (lines 255-261): `super().extend` consumes the
generator `(self.check_type(obj, i, emit) for ...)`, where
`checks_type`'s `action` parameter keeps its default `_default_action = 1`,
so `emit` is the raise action regardless of the class's current policy.
The underlying `list.extend` appends each yielded item as it is produced;
when `check_type` raises, the items already appended remain and the
exception propagates. -/
def TypeEnforcer.extend (c : TypeEnforcer) (data : List PyVal) :
    List PyVal → List PyVal × Option PyErr
  | [] => (data, none)
  | x :: xs =>
    match c.check_type x (some .raise) with
    | .error e => (data, some e)
    | .ok (v, _) => c.extend (data ++ [v]) xs

/-- `_TypeEnforcer.__init__(items)` (typing.py lines 252-253):
`super().__init__(self.checks_type(items))`.  `UserList.__init__` builds the
backing list from the same checking generator as `extend` (again with the
hard-coded default raise action); if the generator raises, construction
fails and no instance is produced. -/
def TypeEnforcer.init (c : TypeEnforcer) (items : List PyVal) :
    Except PyErr (List PyVal) :=
  match c.extend [] items with
  | (d, none) => .ok d
  | (_, some e) => .error e

/-- `__setitem__` on a type-restricted container: `_TypeEnforcer` overrides
only `__init__`, `append` and `extend`, so indexed assignment falls through
to `UserList.__setitem__`, which performs `self.data[i] = item` with no type
check, warning or coercion; an out-of-range index raises `IndexError`. -/
def TypeEnforcer.setitem (_c : TypeEnforcer) (data : List PyVal) (i : Nat) (v : PyVal) :
    Except PyErr (List PyVal × Bool) :=
  if i < data.length then .ok (data.set i v, false) else .error .indexError

example : TypeEnforcer.append ⟨[.int], .ignore, none⟩ [] (.vfloat (mkRat 3 2)) =
    ([.vfloat (mkRat 3 2)], false, none) := by decide
example : TypeEnforcer.append ⟨[.int], .warn, none⟩ [.vint 1] (.vfloat (mkRat 3 2)) =
    ([.vint 1, .vnone], true, none) := by decide
example : TypeEnforcer.extend ⟨[.int], .ignore, none⟩ [.vint 1] [.vfloat (mkRat 3 2)] =
    ([.vint 1], some .typeError) := by decide
example : TypeEnforcer.append ⟨[.int], .raise, some .int⟩ [] (.vfloat 1) =
    ([.vint 1], false, none) := by decide
example : TypeEnforcer.type_checking ⟨[.int, .float], .raise, none⟩ (-2) =
    .error .valueError := by decide
example : TypeEnforcer.init ⟨[.int], .raise, none⟩ [.vint 1, .vint 2, .vint 3] =
    .ok [.vint 1, .vint 2, .vint 3] := by decide

/-! ## Vectorized attribute and method access (vectorize.py)

Elements of a container are modelled as objects carrying a flat attribute
dictionary.  Attribute resolution itself lives in the external `recipes.op`
library (`AttrGetter`, `AttrSetter`, `MethodCaller`), which is not part of
this repository; following the spec (§4.2), it is modelled as plain
get/set-attribute-by-name on that dictionary (single-segment paths; the
claims settled here do not depend on dotted-path chaining). -/

/-- A Python object as seen by the vectorizers: a flat attribute
dictionary. -/
structure PyElem where
  fields : List (String × PyVal)
deriving DecidableEq, Repr

/-- Modelled from the spec: `getattr(el, key)` as performed by
`recipes.op.AttrGetter` for a single-segment path — returns the attribute's
value, or raises `AttributeError` when the element lacks the attribute. -/
def getattr (e : PyElem) (key : String) : Except PyErr PyVal :=
  match e.fields.lookup key with
  | some v => .ok v
  | none => .error .attributeError

/-- Modelled from the spec: `setattr(el, key, v)` as performed by
`recipes.op.AttrSetter` for a single-segment path (update the attribute,
creating it when absent). -/
def setField : List (String × PyVal) → String → PyVal → List (String × PyVal)
  | [], key, v => [(key, v)]
  | (k, w) :: rest, key, v =>
    if k = key then (key, v) :: rest else (k, w) :: setField rest key v

/-- `setattr` on a modelled element. -/
def pySetattr (e : PyElem) (key : String) (v : PyVal) : PyElem :=
  ⟨setField e.fields key v⟩

/-- `AttrGetter(*keys)(el)`: the tuple of attribute values of `el` for the
requested keys (a single-key lookup yields a one-element tuple; the
tuple-versus-scalar packaging does not affect any claim). -/
def getAttrs (keys : List String) (e : PyElem) : Except PyErr (List PyVal) :=
  keys.mapM (getattr e)

/-- `AttrVectorizer(*keys)(target)` = `list(map(AttrGetter(*keys), target))`
(vectorize.py lines 104-105), as exposed by `AttrVector.__call__`
(lines 242-261): the per-element attribute values in container order; a
missing attribute raises `AttributeError`. -/
def attrsVec (keys : List String) (target : List PyElem) :
    Except PyErr (List (List PyVal)) :=
  target.mapM (getAttrs keys)

/-- `AttrVectorizerMixin.varies_by(*keys)` (vectorize.py lines 417-434):
`len(set(self.attrs(*keys))) > 1`.  There is no emptiness check in the
source: an empty container yields the empty set and the result `False`. -/
def varies_by (target : List PyElem) (keys : List String) : Except PyErr Bool :=
  (attrsVec keys target).map fun rs => decide (1 < rs.dedup.length)

/-- The value side of one `(key, values)` pair passed to
`AttrVectorizer.set` (vectorize.py lines 125-193): either an
`itertools.repeat` object produced by the `repeat` helper class
(lines 22-27) — the broadcast mode — or a sized collection of per-element
values — the elementwise mode — or any other (non-`Collection`) value. -/
inductive SetVals where
  | rep (v : PyVal)
  | seq (vs : List PyVal)
  | other (v : PyVal)
deriving DecidableEq, Repr

/-- The validation loop of `AttrVectorizer.set` (vectorize.py lines
176-188), run for every pair before any attribute is assigned: a `Sized`
value whose length differs from the container length raises `ValueError`
("Cannot set attributes: ... values, while ... are expected"); a `repeat`
is cut down to container length (`itt.islice`); any other non-`Collection`
value raises `TypeError`.  On success every key is resolved to a column of
exactly `size` per-element values. -/
def validateVals (size : Nat) : List (String × SetVals) →
    Except PyErr (List (String × List PyVal))
  | [] => .ok []
  | (key, SetVals.seq vs) :: rest =>
    if vs.length ≠ size then .error .valueError
    else
      match validateVals size rest with
      | .error e => .error e
      | .ok cols => .ok ((key, vs) :: cols)
  | (key, SetVals.rep v) :: rest =>
    match validateVals size rest with
    | .error e => .error e
    | .ok cols => .ok ((key, List.replicate size v) :: cols)
  | (_, SetVals.other _) :: _ => .error .typeError

/-- The assignment loop of `AttrVectorizer.set` (vectorize.py lines
190-193): `for item, values in zip(target, zip(*kws.values())):
setter(item, values)` — element `i` of the container receives, for each
key, the `i`-th entry of that key's column. -/
def assignRows : List PyElem → List (String × List PyVal) → List PyElem
  | [], _ => []
  | e :: es, cols =>
    (cols.foldl (fun acc kc => pySetattr acc kc.1 (kc.2.headD PyVal.vnone)) e) ::
      assignRows es (cols.map fun kc => (kc.1, kc.2.tail))

/-- `AttrVectorizer.set(target, mapping)` (vectorize.py lines 125-193):
`assert size` rejects an empty container (`AssertionError`); then the
validation loop runs over all pairs, and only after it succeeds does the
assignment loop mutate any element. -/
def vset (target : List PyElem) (kws : List (String × SetVals)) :
    Except PyErr (List PyElem) :=
  if target.length = 0 then .error .assertionError
  else
    match validateVals target.length kws with
    | .error e => .error e
    | .ok cols => .ok (assignRows target cols)

/-- `str.upper` for the modelled universe (uppercase each character). -/
def strUpper (s : String) : String :=
  ⟨s.data.map Char.toUpper⟩

/-- Modelled from the spec: `recipes.op.MethodCaller(name, *args)(el)`
performs `getattr(el, name)(*args, **kws)`.  The model instantiates the
callable universe with the `upper` method of `str` (the method used by the
repository's own examples and tests); every other lookup raises
`AttributeError`. -/
def pyMethodCall (name : String) (v : PyVal) : Except PyErr PyVal :=
  match name, v with
  | "upper", PyVal.vstr s => .ok (.vstr (strUpper s))
  | _, _ => .error .attributeError

/-- `MethodVectorizer.__call__` dispatching to `_MethodVectorizer`
(vectorize.py lines 271-278 and 331-346) for a `Collection` target:
`assert self.target` rejects a falsy (empty) container; otherwise the
result is `list(map(MethodCaller(name, *args), target))` — the per-element
results in container order, with the first raised exception (for example an
`AttributeError` for a missing method) propagating immediately.  The
method-call semantics is abstracted as the `call` argument. -/
def MethodVectorizer_call {α β : Type} (call : α → Except PyErr β)
    (target : List α) : Except PyErr (List β) :=
  if target.isEmpty then .error .assertionError
  else target.mapM call

/-- `CallVector.__call__(name, *args)` (vectorize.py lines 372-379): stores
the name, evaluates `super().__call__(*args, **kws)` — the full per-element
result list — inside a `try`/`finally` that resets the name, but contains
no `return` statement: on success the Python method returns `None`
(modelled as `.ok none`); a raised exception still propagates. -/
def CallVector_call {α β : Type} (call : α → Except PyErr β)
    (target : List α) : Except PyErr (Option (List β)) :=
  match MethodVectorizer_call call target with
  | .error e => .error e
  | .ok _ => .ok none

example : varies_by [] ["i"] = .ok false := by decide
example : varies_by [⟨[("i", .vint 1)]⟩, ⟨[("i", .vint 1)]⟩] ["i"] = .ok false := by decide
example : varies_by [⟨[("i", .vint 1)]⟩, ⟨[("i", .vint 2)]⟩] ["i"] = .ok true := by decide
example : vset [⟨[("i", .vint 1)]⟩, ⟨[("i", .vint 2)]⟩] [("i", .rep (.vint 9))] =
    .ok [⟨[("i", .vint 9)]⟩, ⟨[("i", .vint 9)]⟩] := by decide
example : vset [⟨[("i", .vint 1)]⟩, ⟨[("i", .vint 2)]⟩] [("i", .seq [.vint 7, .vint 8])] =
    .ok [⟨[("i", .vint 7)]⟩, ⟨[("i", .vint 8)]⟩] := by decide
example : vset [⟨[("i", .vint 1)]⟩, ⟨[("i", .vint 2)]⟩] [("i", .seq [.vint 7])] =
    .error .valueError := by decide
example : CallVector_call (pyMethodCall "upper") [PyVal.vstr "hi"] = .ok none := by decide
example : MethodVectorizer_call (pyMethodCall "upper") [PyVal.vstr "hi", PyVal.vstr "yo"] =
    .ok [PyVal.vstr "HI", PyVal.vstr "YO"] := by decide
example : MethodVectorizer_call (pyMethodCall "upper") [PyVal.vint 1] =
    .error .attributeError := by decide

/-! ## Helper lemmas -/

/-- A conforming object passes `check_type` unchanged, with no warning,
whatever the emit override, policy or converter. -/
lemma check_type_of_conforming (c : TypeEnforcer) (x : PyVal) (ov : Option Emit)
    (h : isinstance_any x c.allowed_types = true) :
    c.check_type x ov = .ok (x, false) := by
  simp [TypeEnforcer.check_type, h]

/-- With the default converter, a non-conforming object makes `check_type`
raise `TypeError` whenever the effective emit action is the raise action. -/
lemma check_type_raise_of_nonconforming (c : TypeEnforcer) (x : PyVal) (ov : Option Emit)
    (hnc : isinstance_any x c.allowed_types = false)
    (hconv : c.convert = none)
    (hemit : ov.getD c.emit = Emit.raise) :
    c.check_type x ov = .error .typeError := by
  simp [TypeEnforcer.check_type, hnc, TypeEnforcer.convert_apply, hconv, hemit]

/-- When the effective emit action is the raise action, any value returned
by `check_type` conforms to the allowed types. -/
lemma check_type_ok_conforms (c : TypeEnforcer) (obj v : PyVal) (w : Bool) (ov : Option Emit)
    (hemit : ov.getD c.emit = Emit.raise)
    (h : c.check_type obj ov = .ok (v, w)) :
    isinstance_any v c.allowed_types = true := by
  unfold TypeEnforcer.check_type at h
  cases h1 : isinstance_any obj c.allowed_types with
  | true =>
    simp [h1] at h
    rw [← h.1, h1]
  | false =>
    simp only [h1, Bool.false_eq_true, if_false] at h
    cases hc : c.convert_apply obj with
    | error e => rw [hc] at h; cases h
    | ok obj' =>
      rw [hc] at h
      dsimp only at h
      cases h2 : isinstance_any obj' c.allowed_types with
      | true =>
        simp [h2] at h
        rw [← h.1, h2]
      | false =>
        simp only [h2, Bool.false_eq_true, if_false] at h
        rw [hemit] at h
        simp at h

/-- `extend` preserves conformance of the container contents (the checking
generator always runs with the hard-coded raise action). -/
lemma extend_preserves_conforming (c : TypeEnforcer) (items : List PyVal) :
    ∀ data : List PyVal, (∀ x ∈ data, isinstance_any x c.allowed_types = true) →
      ∀ x ∈ (c.extend data items).1, isinstance_any x c.allowed_types = true := by
  induction items with
  | nil => intro data h x hx; exact h x hx
  | cons a as ih =>
    intro data h x hx
    unfold TypeEnforcer.extend at hx
    cases hc : c.check_type a (some .raise) with
    | error e => rw [hc] at hx; exact h x hx
    | ok vw =>
      obtain ⟨v, w⟩ := vw
      rw [hc] at hx
      refine ih (data ++ [v]) ?_ x hx
      intro y hy
      rcases List.mem_append.mp hy with hy | hy
      · exact h y hy
      · rw [List.mem_singleton.mp hy]
        exact check_type_ok_conforms c a v w (some .raise) rfl hc

/-- Unfolding equation for `extend` on a non-empty iterable. -/
lemma extend_cons (c : TypeEnforcer) (data : List PyVal) (x : PyVal) (xs : List PyVal) :
    c.extend data (x :: xs) =
      match c.check_type x (some .raise) with
      | .error e => (data, some e)
      | .ok (v, _) => c.extend (data ++ [v]) xs := rfl

/-- Feeding `extend` a conforming prefix appends exactly that prefix. -/
lemma extend_conforming_front (c : TypeEnforcer) (pre : List PyVal)
    (hpre : ∀ x ∈ pre, isinstance_any x c.allowed_types = true) :
    ∀ (data rest : List PyVal), c.extend data (pre ++ rest) = c.extend (data ++ pre) rest := by
  induction pre with
  | nil => intro data rest; simp
  | cons a as ih =>
    intro data rest
    have ha : isinstance_any a c.allowed_types = true := hpre a (List.mem_cons_self a as)
    rw [List.cons_append, extend_cons, check_type_of_conforming c a (some .raise) ha]
    dsimp only
    rw [ih (fun x hx => hpre x (List.mem_cons_of_mem a hx)) (data ++ [a]) rest]
    simp

/-- With the default converter, `extend` raises `TypeError` at a
non-conforming head element without appending anything further. -/
lemma extend_stops_at_nonconforming (c : TypeEnforcer) (bad : PyVal)
    (hconv : c.convert = none)
    (hbad : isinstance_any bad c.allowed_types = false)
    (data post : List PyVal) :
    c.extend data (bad :: post) = (data, some .typeError) := by
  unfold TypeEnforcer.extend
  rw [check_type_raise_of_nonconforming c bad (some .raise) hbad hconv rfl]

/-! ## Claim theorems -/

/-- C1 (counterexample).  The claim states that class construction succeeds
if and only if each newly requested type is a subtype of at least one
previously allowed type.  With requested types `(bool, float)` under an
`Integral`-restricted ancestor, the spec's condition is violated (`float` is
unrelated to `Integral`), yet `_check_allowed_types` succeeds: its inner
loop breaks as soon as the first requested type (`bool`) is a subclass of
the previously allowed type, so `float` is never examined. -/
theorem C1_counterexample :
    _check_allowed_types [PyType.bool, PyType.float] [PyType.integral] = .ok () ∧
    spec_narrowing_ok [PyType.bool, PyType.float] [PyType.integral] = false := by
  decide

/-- C1 (amended).  What the code actually enforces: construction passes the
restriction-compatibility check if and only if, for every previously
allowed type, the first newly requested type (when any are requested) is a
subclass of it.  In particular the claim's two examples do hold:
restricting to `bool` under an `Integral`-restricted ancestor succeeds, and
requesting the unrelated `float` there fails with a `TypeError` at class
construction. -/
theorem C1_amended (requested previous : List PyType) :
    (_check_allowed_types requested previous = .ok () ↔
      ∀ allowed ∈ previous, ∀ new ∈ requested.take 1, issubclass new allowed = true) ∧
    _check_allowed_types [PyType.bool] [PyType.integral] = .ok () ∧
    _check_allowed_types [PyType.float] [PyType.integral] = .error .typeError := by
  refine ⟨?_, by decide, by decide⟩
  induction previous with
  | nil => simp [_check_allowed_types]
  | cons allowed rest ih =>
    cases hr : requested with
    | nil => simp [_check_allowed_types, hr, hr ▸ ih]
    | cons new tl =>
      by_cases hs : issubclass new allowed = true
      · simp [_check_allowed_types, hr, hs, hr ▸ ih]
      · simp only [Bool.not_eq_true] at hs
        simp [_check_allowed_types, hr, hs]

/-- C2 (counterexample).  The claimed invariant — every element of a
type-restricted container is an instance of an allowed type after any
successful `__init__`/`append`/`extend`, under every enforcement policy —
fails under the ignore policy: on an `int`-restricted container with
`emit = echo0`, `append(1.5)` returns successfully and stores the float
`1.5`, which is not an instance of `int`. -/
theorem C2_counterexample :
    TypeEnforcer.append ⟨[PyType.int], Emit.ignore, none⟩ [] (.vfloat (mkRat 3 2)) =
      ([.vfloat (mkRat 3 2)], false, none) ∧
    isinstance_any (.vfloat (mkRat 3 2)) [PyType.int] = false := by
  decide

/-- C2 (amended).  The invariant the code maintains: starting from a
container whose elements all conform, (1) a successful `__init__` produces
only conforming elements and (2) `extend` leaves only conforming elements —
under every policy, because their checking generator always runs with the
hard-coded raise action — while (3) a successful `append` preserves the
invariant under the raise policy (the policy `append` actually consults). -/
theorem C2_amended (c : TypeEnforcer) (data : List PyVal)
    (hdata : ∀ x ∈ data, isinstance_any x c.allowed_types = true) :
    (∀ items d, c.init items = .ok d →
      ∀ x ∈ d, isinstance_any x c.allowed_types = true) ∧
    (∀ items, ∀ x ∈ (c.extend data items).1,
      isinstance_any x c.allowed_types = true) ∧
    (c.emit = Emit.raise →
      ∀ v d w, c.append data v = (d, w, none) →
      ∀ x ∈ d, isinstance_any x c.allowed_types = true) := by
  refine ⟨?_, ?_, ?_⟩
  · intro items d hinit x hx
    unfold TypeEnforcer.init at hinit
    cases he : c.extend [] items with
    | mk d' err =>
      cases err with
      | none =>
        rw [he] at hinit
        simp at hinit
        subst hinit
        have := extend_preserves_conforming c items [] (by simp) x
        rw [he] at this
        exact this hx
      | some e => rw [he] at hinit; cases hinit
  · intro items
    exact extend_preserves_conforming c items data hdata
  · intro hemit v d w happ x hx
    unfold TypeEnforcer.append at happ
    cases hc : c.check_type v none with
    | error e =>
      rw [hc] at happ
      dsimp only at happ
      simp at happ
    | ok vw =>
      obtain ⟨v2, w2⟩ := vw
      rw [hc] at happ
      dsimp only at happ
      simp only [Prod.mk.injEq] at happ
      obtain ⟨hd, hw, -⟩ := happ
      subst hd
      rcases List.mem_append.mp hx with hx | hx
      · exact hdata x hx
      · rw [List.mem_singleton.mp hx]
        exact check_type_ok_conforms c v v2 w2 none (by simp [hemit]) hc

/-- C2 (witness). -/
theorem C2_witness :
    (∀ items d, TypeEnforcer.init ⟨[PyType.int], Emit.raise, none⟩ items = .ok d →
      ∀ x ∈ d, isinstance_any x [PyType.int] = true) ∧
    (∀ items, ∀ x ∈ (TypeEnforcer.extend ⟨[PyType.int], Emit.raise, none⟩ [.vint 1] items).1,
      isinstance_any x [PyType.int] = true) ∧
    (Emit.raise = Emit.raise →
      ∀ v d w, TypeEnforcer.append ⟨[PyType.int], Emit.raise, none⟩ [.vint 1] v = (d, w, none) →
      ∀ x ∈ d, isinstance_any x [PyType.int] = true) :=
  C2_amended ⟨[PyType.int], Emit.raise, none⟩ [.vint 1] (by decide)

/-- C3 (confirmed).  Under the raise policy (the default class state:
`emit` raises, `convert` is `echo0`): appending a non-conforming element
raises `TypeError` and leaves the underlying list exactly as it was
(`check_type` raises before `super().append` runs); a failing `extend`
stops at the first non-conforming element of the iterable but the earlier,
conforming elements remain appended; `__init__` of the same iterable fails
with the same `TypeError` (fail-fast, not atomic). -/
theorem C3_raise_fail_fast (c : TypeEnforcer) (hemit : c.emit = Emit.raise)
    (hconv : c.convert = none) (data pre post : List PyVal) (bad : PyVal)
    (hpre : ∀ x ∈ pre, isinstance_any x c.allowed_types = true)
    (hbad : isinstance_any bad c.allowed_types = false) :
    c.append data bad = (data, false, some PyErr.typeError) ∧
    c.extend data (pre ++ bad :: post) = (data ++ pre, some PyErr.typeError) ∧
    c.init (pre ++ bad :: post) = .error PyErr.typeError := by
  have hext : ∀ d : List PyVal, c.extend d (pre ++ bad :: post) = (d ++ pre, some PyErr.typeError) := by
    intro d
    rw [extend_conforming_front c pre hpre d (bad :: post),
      extend_stops_at_nonconforming c bad hconv hbad]
  refine ⟨?_, hext data, ?_⟩
  · unfold TypeEnforcer.append
    rw [check_type_raise_of_nonconforming c bad none hbad hconv (by simp [hemit])]
  · unfold TypeEnforcer.init
    rw [hext []]

/-- C3 (witness): an `int`-restricted container under the default raise
policy, holding `[0]`, with iterable `[1, 1.5]`. -/
theorem C3_witness :
    TypeEnforcer.append ⟨[PyType.int], Emit.raise, none⟩ [.vint 0] (.vfloat (mkRat 3 2)) =
      ([.vint 0], false, some PyErr.typeError) ∧
    TypeEnforcer.extend ⟨[PyType.int], Emit.raise, none⟩ [.vint 0]
      ([.vint 1] ++ .vfloat (mkRat 3 2) :: []) =
      ([.vint 0] ++ [.vint 1], some PyErr.typeError) ∧
    TypeEnforcer.init ⟨[PyType.int], Emit.raise, none⟩
      ([.vint 1] ++ .vfloat (mkRat 3 2) :: []) = .error PyErr.typeError :=
  C3_raise_fail_fast ⟨[PyType.int], Emit.raise, none⟩ rfl rfl [.vint 0] [.vint 1] []
    (.vfloat (mkRat 3 2)) (by decide) (by decide)

/-- The class-level state reached by enabling coercion
(`type_checking(-2)`) on an `int`-restricted container class with the
default raise action. -/
def coerceIntClass : TypeEnforcer := ⟨[PyType.int], Emit.raise, some PyType.int⟩

/-- C4 (confirmed).  The coerce policy: (1) enabling coercion on a class
with more than one allowed type fails with `ValueError` (the configuration
error); (2) with exactly one allowed type it installs that type's
constructor as the converter; (3) on the `int`-restricted coercing class,
appending the float `1.0` stores the int `1`; and (4) in general, with a
converter installed and the raise action in force, appending a
non-conforming element passes it through the constructor — a conversion
error propagates, a conforming conversion result is stored, and a result
that still fails the instance check falls through to the raise behaviour
(`TypeError`). -/
theorem C4_coerce :
    (∀ c : TypeEnforcer, 2 ≤ c.allowed_types.length →
      c.type_checking (-2) = .error .valueError) ∧
    (∀ (c : TypeEnforcer) (t : PyType), c.allowed_types = [t] →
      c.type_checking (-2) = .ok { c with convert := some t }) ∧
    (TypeEnforcer.type_checking ⟨[PyType.int], Emit.raise, none⟩ (-2) = .ok coerceIntClass ∧
      ∀ data, coerceIntClass.append data (.vfloat 1) = (data ++ [.vint 1], false, none)) ∧
    (∀ (c : TypeEnforcer) (t : PyType) (data : List PyVal) (v : PyVal),
      c.convert = some t → c.emit = Emit.raise →
      isinstance_any v c.allowed_types = false →
      c.append data v =
        match pyCall t v with
        | .error e => (data, false, some e)
        | .ok v2 =>
          if isinstance_any v2 c.allowed_types then (data ++ [v2], false, none)
          else (data, false, some PyErr.typeError)) := by
  refine ⟨?_, ?_, ⟨by decide, ?_⟩, ?_⟩
  · intro c hlen
    unfold TypeEnforcer.type_checking TypeEnforcer.get_converter
    cases hal : c.allowed_types with
    | nil => rw [hal] at hlen; simp at hlen
    | cons t rest =>
      cases rest with
      | nil => rw [hal] at hlen; simp at hlen
      | cons t2 rest2 => simp
  · intro c t hal
    unfold TypeEnforcer.type_checking TypeEnforcer.get_converter
    rw [hal]
    simp
  · intro data
    have h1 : coerceIntClass.check_type (.vfloat 1) none = .ok (.vint 1, false) := by decide
    unfold TypeEnforcer.append
    rw [h1]
  · intro c t data v hconv hemit hnc
    unfold TypeEnforcer.append TypeEnforcer.check_type
    rw [hnc]
    simp only [Bool.false_eq_true, if_false]
    have hca : c.convert_apply v = pyCall t v := by
      unfold TypeEnforcer.convert_apply
      rw [hconv]
    rw [hca]
    cases pyCall t v with
    | error e => rfl
    | ok v2 =>
      dsimp only
      cases h2 : isinstance_any v2 c.allowed_types with
      | true => simp [h2]
      | false =>
        simp only [h2, Bool.false_eq_true, if_false]
        rw [Option.getD_none, hemit]

/-- C4 (witness): the multi-type configuration error at
`OfTypes(int, float)`; converter installation and the `1.0 → 1` coercion on
the `int` class; and the general coercion equation instantiated at a string
(conversion raises `ValueError`, which propagates). -/
theorem C4_witness :
    TypeEnforcer.type_checking ⟨[PyType.int, PyType.float], Emit.raise, none⟩ (-2) =
      .error .valueError ∧
    TypeEnforcer.type_checking ⟨[PyType.int], Emit.raise, none⟩ (-2) =
      .ok { (⟨[PyType.int], Emit.raise, none⟩ : TypeEnforcer) with convert := some PyType.int } ∧
    coerceIntClass.append [] (.vfloat 1) = ([] ++ [.vint 1], false, none) ∧
    coerceIntClass.append [] (.vstr "abc") =
      (match pyCall PyType.int (.vstr "abc") with
        | .error e => ([], false, some e)
        | .ok v2 =>
          if isinstance_any v2 coerceIntClass.allowed_types then ([] ++ [v2], false, none)
          else ([], false, some PyErr.typeError)) :=
  ⟨C4_coerce.1 ⟨[PyType.int, PyType.float], Emit.raise, none⟩ (by decide),
   C4_coerce.2.1 ⟨[PyType.int], Emit.raise, none⟩ PyType.int rfl,
   C4_coerce.2.2.1.2 [],
   C4_coerce.2.2.2 coerceIntClass PyType.int [] (.vstr "abc") rfl rfl (by decide)⟩

/-- C5 (counterexample).  The claim says that after the policy is set to
ignore, every non-conforming element passed to construction, `append` or
`extend` is inserted unchanged with no error.  On an `int`-restricted
container class with the ignore policy installed, `extend([1.5])` instead
raises `TypeError` and inserts nothing, and construction from `[1.5]`
fails the same way: the checking generator `checks_type` runs with its
hard-coded default `action=1` (raise), ignoring the class policy. -/
theorem C5_counterexample :
    TypeEnforcer.extend ⟨[PyType.int], Emit.ignore, none⟩ [.vint 1] [.vfloat (mkRat 3 2)] =
      ([.vint 1], some PyErr.typeError) ∧
    TypeEnforcer.init ⟨[PyType.int], Emit.ignore, none⟩ [.vfloat (mkRat 3 2)] =
      .error PyErr.typeError := by
  decide

/-- C5 (amended).  What the ignore policy actually does:
`type_checking(-1)` installs `echo0` as the class's emit action; under it,
`append` inserts a non-conforming element unchanged with no error and no
warning; but construction and `extend` keep enforcing with the hard-coded
default raise action and fail with `TypeError` at the first non-conforming
element. -/
theorem C5_amended (c : TypeEnforcer) (hconv : c.convert = none)
    (data rest : List PyVal) (v : PyVal)
    (hnc : isinstance_any v c.allowed_types = false) :
    c.type_checking (-1) = .ok { c with emit := Emit.ignore } ∧
    TypeEnforcer.append { c with emit := Emit.ignore } data v = (data ++ [v], false, none) ∧
    TypeEnforcer.extend { c with emit := Emit.ignore } data (v :: rest) =
      (data, some PyErr.typeError) ∧
    TypeEnforcer.init { c with emit := Emit.ignore } (v :: rest) = .error PyErr.typeError := by
  have hext : TypeEnforcer.extend { c with emit := Emit.ignore } data (v :: rest) =
      (data, some PyErr.typeError) :=
    extend_stops_at_nonconforming { c with emit := Emit.ignore } v hconv hnc data rest
  refine ⟨?_, ?_, hext, ?_⟩
  · unfold TypeEnforcer.type_checking
    norm_num
  · unfold TypeEnforcer.append
    have hct : TypeEnforcer.check_type { c with emit := Emit.ignore } v none = .ok (v, false) := by
      unfold TypeEnforcer.check_type TypeEnforcer.convert_apply
      simp [hnc, hconv]
    rw [hct]
  · unfold TypeEnforcer.init
    rw [extend_stops_at_nonconforming { c with emit := Emit.ignore } v hconv hnc [] rest]

/-- C5 (witness): the `int`-restricted class, `data = [1]`, `v = 1.5`. -/
theorem C5_witness :
    TypeEnforcer.type_checking ⟨[PyType.int], Emit.raise, none⟩ (-1) =
      .ok { (⟨[PyType.int], Emit.raise, none⟩ : TypeEnforcer) with emit := Emit.ignore } ∧
    TypeEnforcer.append
      { (⟨[PyType.int], Emit.raise, none⟩ : TypeEnforcer) with emit := Emit.ignore }
      [.vint 1] (.vfloat (mkRat 3 2)) = ([.vint 1] ++ [.vfloat (mkRat 3 2)], false, none) ∧
    TypeEnforcer.extend
      { (⟨[PyType.int], Emit.raise, none⟩ : TypeEnforcer) with emit := Emit.ignore }
      [.vint 1] (.vfloat (mkRat 3 2) :: []) = ([.vint 1], some PyErr.typeError) ∧
    TypeEnforcer.init
      { (⟨[PyType.int], Emit.raise, none⟩ : TypeEnforcer) with emit := Emit.ignore }
      (.vfloat (mkRat 3 2) :: []) = .error PyErr.typeError :=
  C5_amended ⟨[PyType.int], Emit.raise, none⟩ rfl [.vint 1] [] (.vfloat (mkRat 3 2)) (by decide)

/-- C6 (code bug).  The claim says that under the warn policy a
non-conforming element is inserted unchanged after a warning.  In the code,
`check_type` explicitly returns the object when the emit action is `echo0`
(ignore), but when the action is `wrn.warn` it calls `emit(...)` — which
emits the warning — and then falls off the end of the function, returning
`None`; `append` then stores that `None`.  Evaluating the model at the
failing input: `type_checking(0)` installs the warn action on the
`int`-restricted class; appending `1.5` to `[1]` emits a warning (the
`true` flag) and appends `None`, not `1.5`.  (Construction and `extend`
ignore the warn policy altogether, as in C5, and raise.) -/
theorem C6_code_behavior :
    TypeEnforcer.type_checking ⟨[PyType.int], Emit.raise, none⟩ 0 =
      .ok ⟨[PyType.int], Emit.warn, none⟩ ∧
    TypeEnforcer.append ⟨[PyType.int], Emit.warn, none⟩ [.vint 1] (.vfloat (mkRat 3 2)) =
      ([.vint 1, PyVal.vnone], true, none) ∧
    TypeEnforcer.extend ⟨[PyType.int], Emit.warn, none⟩ [.vint 1] [.vfloat (mkRat 3 2)] =
      ([.vint 1], some PyErr.typeError) := by
  decide

/-- A list's deduplication has more than one element exactly when the list
contains two distinct elements (i.e. the set of its values has more than
one distinct value). -/
lemma one_lt_dedup_length_iff {α : Type} [DecidableEq α] (l : List α) :
    1 < l.dedup.length ↔ ∃ x ∈ l, ∃ y ∈ l, x ≠ y := by
  constructor
  · intro h
    rcases hd : l.dedup with - | ⟨a, - | ⟨b, t⟩⟩
    · rw [hd] at h; simp at h
    · rw [hd] at h; simp at h
    · have hnd := l.nodup_dedup
      rw [hd] at hnd
      have hab : a ≠ b := by
        intro hab
        exact (List.nodup_cons.mp hnd).1 (hab ▸ List.mem_cons_self b t)
      have ha : a ∈ l := List.mem_dedup.mp (hd ▸ List.mem_cons_self a (b :: t))
      have hb : b ∈ l := List.mem_dedup.mp (hd ▸ List.mem_cons_of_mem a (List.mem_cons_self b t))
      exact ⟨a, ha, b, hb, hab⟩
  · rintro ⟨x, hx, y, hy, hxy⟩
    by_contra h
    push_neg at h
    have hxd : x ∈ l.dedup := List.mem_dedup.mpr hx
    have hyd : y ∈ l.dedup := List.mem_dedup.mpr hy
    rcases hd : l.dedup with - | ⟨a, - | ⟨b, t⟩⟩
    · rw [hd] at hxd; simp at hxd
    · rw [hd] at hxd hyd
      rw [List.mem_singleton.mp hxd, List.mem_singleton.mp hyd] at hxy
      exact hxy rfl
    · rw [hd] at h; simp at h

/-- C7 (counterexample).  The claim says `varies` raises an
empty-container error rather than returning a boolean when the container is
empty.  `varies_by` performs no emptiness check: on an empty container the
vectorized get yields the empty list, whose value set is empty, and the
method returns the boolean `False` — no exception of any kind is raised. -/
theorem C7_counterexample :
    varies_by ([] : List PyElem) ["i"] = .ok false ∧
    ∀ e : PyErr, varies_by ([] : List PyElem) ["i"] ≠ .error e := by
  exact ⟨rfl, fun e h => by cases h⟩

/-- C7 (amended).  `varies_by(*keys)` returns
`len(set(self.attrs(*keys))) > 1`: whenever the vectorized get succeeds
with results `rs`, the returned boolean is true exactly when `rs` contains
two distinct values; on an empty container it returns `False` instead of
raising. -/
theorem C7_amended (target : List PyElem) (keys : List String)
    (rs : List (List PyVal)) (b : Bool)
    (hget : attrsVec keys target = .ok rs)
    (hv : varies_by target keys = .ok b) :
    (b = true ↔ ∃ x ∈ rs, ∃ y ∈ rs, x ≠ y) ∧
    varies_by [] keys = .ok false := by
  constructor
  · unfold varies_by at hv
    rw [hget] at hv
    simp only [Except.map] at hv
    have hb : b = decide (1 < rs.dedup.length) := (Except.ok.inj hv).symm
    rw [hb, decide_eq_true_iff]
    exact one_lt_dedup_length_iff rs
  · unfold varies_by attrsVec
    rfl

/-- C7 (witness): a two-element container whose elements differ in
attribute `i`. -/
theorem C7_witness :
    ((true = true) ↔ ∃ x ∈ [[PyVal.vint 1], [PyVal.vint 2]],
      ∃ y ∈ [[PyVal.vint 1], [PyVal.vint 2]], x ≠ y) ∧
    varies_by [] ["i"] = .ok false :=
  C7_amended [⟨[("i", .vint 1)]⟩, ⟨[("i", .vint 2)]⟩] ["i"]
    [[PyVal.vint 1], [PyVal.vint 2]] true rfl rfl

/-- The assignment loop with a single key-column: element `i` receives the
`i`-th entry of the column. -/
lemma assignRows_single (key : String) :
    ∀ (es : List PyElem) (vs : List PyVal), es.length ≤ vs.length →
      assignRows es [(key, vs)] = List.zipWith (fun e v => pySetattr e key v) es vs := by
  intro es
  induction es with
  | nil => intro vs _; rfl
  | cons e es ih =>
    intro vs hlen
    cases vs with
    | nil => simp at hlen
    | cons v vs =>
      show pySetattr e key ((v :: vs).headD PyVal.vnone) ::
        assignRows es [(key, (v :: vs).tail)] = _
      simp only [List.headD_cons, List.tail_cons, List.zipWith_cons_cons]
      rw [ih vs (Nat.le_of_succ_le_succ hlen)]

/-- Zipping a list against a long-enough replicate applies the same value
throughout. -/
lemma zipWith_replicate_ge {α β γ : Type} (f : α → β → γ) (v : β) :
    ∀ (es : List α) (n : Nat), es.length ≤ n →
      List.zipWith f es (List.replicate n v) = es.map fun e => f e v := by
  intro es
  induction es with
  | nil => intro n _; simp
  | cons e es ih =>
    intro n hlen
    cases n with
    | zero => simp at hlen
    | succ m =>
      simp only [List.replicate_succ, List.zipWith_cons_cons, List.map_cons]
      rw [ih m (Nat.le_of_succ_le_succ hlen)]

/-- C8 (counterexample).  The claim covers "every vectorized set call",
but on an empty container `AttrVectorizer.set` hits `assert size`
(vectorize.py line 175) before the validation loop runs: an elementwise
call whose sequence length (here 1) differs from the container length
(here 0) raises `AssertionError`, not the claimed value-length error. -/
theorem C8_counterexample :
    vset ([] : List PyElem) [("i", SetVals.seq [.vint 7])] = .error PyErr.assertionError ∧
    vset ([] : List PyElem) [("i", SetVals.seq [.vint 7])] ≠ .error PyErr.valueError := by
  decide

/-- C8 (amended).  On a non-empty container: broadcast mode (a value
wrapped by the `repeat` helper) assigns the same value to the named
attribute of every element; elementwise mode requires the supplied sequence
to have exactly the container's length, and element `i` receives
`value[i]`; a length mismatch raises `ValueError` during the validation
pass, which the source runs to completion before the assignment loop
touches any element — so nothing is mutated.  On an empty container every
set call — whatever the value mapping — instead fails the `assert size`
guard with `AssertionError` before any length validation. -/
theorem C8_set_modes (target : List PyElem) (key : String) (v : PyVal)
    (vs : List PyVal) (hne : target ≠ []) :
    (vset target [(key, SetVals.rep v)] =
      .ok (target.map fun e => pySetattr e key v) ∧
    (vs.length = target.length →
      vset target [(key, SetVals.seq vs)] =
        .ok (List.zipWith (fun e w => pySetattr e key w) target vs)) ∧
    (vs.length ≠ target.length →
      vset target [(key, SetVals.seq vs)] = .error PyErr.valueError)) ∧
    ∀ kws : List (String × SetVals), vset [] kws = .error PyErr.assertionError := by
  have hlen0 : ¬ target.length = 0 := by
    intro h
    exact hne (List.length_eq_zero.mp h)
  refine ⟨⟨?_, ?_, ?_⟩, fun kws => rfl⟩
  · unfold vset validateVals
    rw [if_neg hlen0]
    rw [show validateVals target.length [] = .ok [] from rfl]
    dsimp only
    rw [assignRows_single key target (List.replicate target.length v) (by simp),
      zipWith_replicate_ge (fun e w => pySetattr e key w) v target target.length le_rfl]
  · intro hvs
    unfold vset validateVals
    rw [if_neg hlen0]
    rw [if_neg (by rw [hvs]; exact fun h => h rfl)]
    rw [show validateVals target.length [] = .ok [] from rfl]
    dsimp only
    rw [assignRows_single key target vs (by rw [hvs])]
  · intro hvs
    unfold vset validateVals
    rw [if_neg hlen0]
    rw [if_pos hvs]

/-- C8 (witness): the spec's three-element scenario — broadcast
`set({'i': 9})`, elementwise `set({'i': [7, 8, 9]})`, the mismatched
`set({'i': [7, 8]})` — and the empty-container assertion failure. -/
theorem C8_witness :
    vset [⟨[("i", .vint 1)]⟩, ⟨[("i", .vint 2)]⟩, ⟨[("i", .vint 3)]⟩]
      [("i", SetVals.rep (.vint 9))] =
      .ok ([⟨[("i", .vint 1)]⟩, ⟨[("i", .vint 2)]⟩, ⟨[("i", .vint 3)]⟩].map
        fun e => pySetattr e "i" (.vint 9)) ∧
    vset [⟨[("i", .vint 1)]⟩, ⟨[("i", .vint 2)]⟩, ⟨[("i", .vint 3)]⟩]
      [("i", SetVals.seq [.vint 7, .vint 8, .vint 9])] =
      .ok (List.zipWith (fun e w => pySetattr e "i" w)
        [⟨[("i", .vint 1)]⟩, ⟨[("i", .vint 2)]⟩, ⟨[("i", .vint 3)]⟩]
        [.vint 7, .vint 8, .vint 9]) ∧
    vset [⟨[("i", .vint 1)]⟩, ⟨[("i", .vint 2)]⟩, ⟨[("i", .vint 3)]⟩]
      [("i", SetVals.seq [.vint 7, .vint 8])] = .error PyErr.valueError ∧
    vset [] [("i", SetVals.rep (.vint 9))] = .error PyErr.assertionError :=
  ⟨((C8_set_modes [⟨[("i", .vint 1)]⟩, ⟨[("i", .vint 2)]⟩, ⟨[("i", .vint 3)]⟩]
      "i" (.vint 9) [] (by decide)).1).1,
   ((C8_set_modes [⟨[("i", .vint 1)]⟩, ⟨[("i", .vint 2)]⟩, ⟨[("i", .vint 3)]⟩]
      "i" (.vint 9) [.vint 7, .vint 8, .vint 9] (by decide)).1).2.1 (by decide),
   ((C8_set_modes [⟨[("i", .vint 1)]⟩, ⟨[("i", .vint 2)]⟩, ⟨[("i", .vint 3)]⟩]
      "i" (.vint 9) [.vint 7, .vint 8] (by decide)).1).2.2 (by decide),
   (C8_set_modes [⟨[("i", .vint 1)]⟩, ⟨[("i", .vint 2)]⟩, ⟨[("i", .vint 3)]⟩]
      "i" (.vint 9) [] (by decide)).2 [("i", SetVals.rep (.vint 9))]⟩

/-- C9 (code bug).  The claim says `calls(method_name, *args)` returns the
list of per-element results.  The underlying `_MethodVectorizer` does
compute exactly that list (second conjunct), and a missing method surfaces
immediately as `AttributeError` (third conjunct) — but
`CallVector.__call__` evaluates `super().__call__(*args, **kws)` without a
`return` statement, so the explicit-name call form returns `None` (first
conjunct), discarding the computed results. -/
theorem C9_code_behavior :
    CallVector_call (pyMethodCall "upper") [PyVal.vstr "hi", PyVal.vstr "there"] = .ok none ∧
    MethodVectorizer_call (pyMethodCall "upper") [PyVal.vstr "hi", PyVal.vstr "there"] =
      .ok [PyVal.vstr "HI", PyVal.vstr "THERE"] ∧
    CallVector_call (pyMethodCall "upper") [PyVal.vint 1, PyVal.vstr "hi"] =
      .error PyErr.attributeError := by
  refine ⟨rfl, ?_, rfl⟩
  decide

/-- C10 (confirmed).  For every type-restricted container class (whatever
its allowed types, policy and converter), every in-bounds index `i` and
every value `v` — conforming or not — indexed assignment succeeds with no
error and no warning, stores `v` verbatim at position `i`, and leaves the
length and every other position unchanged: `_TypeEnforcer` does not
override `__setitem__`, so `UserList.__setitem__` assigns directly. -/
theorem C10_setitem_unchecked (c : TypeEnforcer) (data : List PyVal)
    (i : Nat) (v : PyVal) (h : i < data.length) :
    c.setitem data i v = .ok (data.set i v, false) ∧
    (data.set i v)[i]? = some v ∧
    (data.set i v).length = data.length ∧
    ∀ j : Nat, j ≠ i → (data.set i v)[j]? = data[j]? := by
  refine ⟨?_, ?_, by simp, ?_⟩
  · unfold TypeEnforcer.setitem
    rw [if_pos h]
  · exact List.getElem?_set_eq_of_lt v h
  · intro j hj
    rw [List.getElem?_set_ne (fun hij => hj hij.symm)]

/-- C10 (witness): storing the string `"x"` at index 0 of the
`int`-restricted container `[1, 2]`. -/
theorem C10_witness :
    TypeEnforcer.setitem ⟨[PyType.int], Emit.raise, none⟩ [.vint 1, .vint 2] 0 (.vstr "x") =
      .ok ([PyVal.vint 1, PyVal.vint 2].set 0 (.vstr "x"), false) ∧
    ([PyVal.vint 1, PyVal.vint 2].set 0 (PyVal.vstr "x"))[0]? = some (.vstr "x") ∧
    ([PyVal.vint 1, PyVal.vint 2].set 0 (PyVal.vstr "x")).length =
      [PyVal.vint 1, PyVal.vint 2].length ∧
    ∀ j : Nat, j ≠ 0 → ([PyVal.vint 1, PyVal.vint 2].set 0 (PyVal.vstr "x"))[j]? =
      [PyVal.vint 1, PyVal.vint 2][j]? :=
  C10_setitem_unchecked ⟨[PyType.int], Emit.raise, none⟩ [.vint 1, .vint 2] 0 (.vstr "x")
    (by decide)
